import Mathlib

/-!
Verification of the WiFi failover monitor (`wifi_failover/monitor.py`).

The file shallowly embeds the decision core of `WiFiFailoverMonitor`:

* `check_internet_connectivity`, `is_screen_locked`, `connect_to_hotspot`,
  `send_heartbeat` are embedded as pure functions of the outcomes of the
  external calls they make (subprocess runs, HTTP posts), mirroring the
  Python control flow including its `try/except` structure;
* the tick body of `monitor_network` (lines 255-310) is embedded as
  `stepFailover`, a function of the loop state
  `(failure_count, recovery_count, failover_active)` and of a `TickInput`
  recording the probe result and the outcomes of the external calls the
  tick might make; it also reports which external commands were issued;
* the loop itself is embedded as folds over input sequences
  (`run_list`, `stateAt`), and, for claims about faults and about the
  heartbeat thread, as runs over event sequences interleaving decision
  ticks with faults (`monitorLoop`) or heartbeats (`systemStep`).
-/

set_option autoImplicit false

namespace WifiFailover

/-! ### Outcomes of external calls -/

/-- Outcome of the `ping` subprocess in `check_internet_connectivity`:
it either completes with a return code, raises `TimeoutExpired`, or raises
some other exception. -/
inductive PingOutcome where
  | completed (returncode : Int)
  | timeoutExpired
  | raised
  deriving DecidableEq

/-- Kinds of exception escaping the body of a `try` block. -/
inductive PyError where
  | timeout
  | other
  deriving DecidableEq

/-- The `try` body of `check_internet_connectivity`: runs the ping and
returns `returncode == 0`; a timeout or other failure raises. -/
def checkInternetBody : PingOutcome → Except PyError Bool
  | .completed rc => .ok (rc == 0)
  | .timeoutExpired => .error .timeout
  | .raised => .error .other

/-- `check_internet_connectivity` (monitor.py lines 94-108): the `try`
body wrapped in the two `except` clauses, both of which return `False`. -/
def check_internet_connectivity (o : PingOutcome) : Except PyError Bool :=
  match checkInternetBody o with
  | .ok b => .ok b
  | .error _ => .ok false

/-- Outcome of the `pgrep -x ScreenSaverEngine` subprocess in
`is_screen_locked`: completion with a return code, or any exception. -/
inductive PgrepOutcome where
  | completed (returncode : Int)
  | raised
  deriving DecidableEq

/-- `is_screen_locked` (monitor.py lines 57-69): `True` iff `pgrep`
exits 0; any exception collapses to `False` ("assume not locked"). -/
def is_screen_locked : PgrepOutcome → Bool
  | .completed rc => rc == 0
  | .raised => false

/-- The status string `send_heartbeat` derives from the lock check
(monitor.py line 151). -/
def heartbeatStatus (isLocked : Bool) : String :=
  if isLocked then "paused" else "active"

/-! ### The decision loop state and one tick of `monitor_network` -/

/-- Thresholds captured from the monitor's configuration. -/
structure Config where
  failure_threshold : Nat
  recovery_threshold : Nat
  deriving DecidableEq

/-- The mutable locals of `monitor_network` carried between ticks
(monitor.py lines 248-250). -/
structure FailoverState where
  failure_count : Nat
  recovery_count : Nat
  failover_active : Bool
  deriving DecidableEq

/-- Initial loop state: counters zero, failover inactive. -/
def initState : FailoverState := ⟨0, 0, false⟩

/-- Everything the environment decides during one tick: the probe result
and the outcomes the external calls would have if issued. `connect_ok`
is consulted only when `trigger_ok` holds (the code only calls
`connect_to_hotspot` after a successful trigger), and `disable_ok` is
recorded but never consulted, mirroring line 283 discarding the result. -/
structure TickInput where
  is_connected : Bool
  trigger_ok : Bool
  connect_ok : Bool
  disable_ok : Bool
  deriving DecidableEq

/-- Which external commands one tick actually issued. -/
structure TickCalls where
  called_trigger : Bool
  called_connect : Bool
  called_disable : Bool
  deriving DecidableEq

/-- One iteration of the `while True` body of `monitor_network`
(monitor.py lines 274-308), as a function of the current state and the
tick's input.  Mirrors the code: on a connected tick `failure_count`
is zeroed and `recovery_count` incremented, then the recovery transition
is taken if active and the (incremented) count meets the threshold,
calling `disable_hotspot_command` whose result is ignored; on a
disconnected tick `recovery_count` is zeroed and `failure_count`
incremented, then if the (incremented) count meets the threshold and no
failover is active, `trigger_hotspot_failover` is called and, on
acceptance, `connect_to_hotspot`; only if both succeed does the state
become active with `failure_count` reset. -/
def stepFailover (cfg : Config) (s : FailoverState) (inp : TickInput) :
    FailoverState × TickCalls :=
  if inp.is_connected then
    let failure_count := 0
    let recovery_count := s.recovery_count + 1
    if s.failover_active ∧ cfg.recovery_threshold ≤ recovery_count then
      (⟨failure_count, 0, false⟩, ⟨false, false, true⟩)
    else
      (⟨failure_count, recovery_count, s.failover_active⟩, ⟨false, false, false⟩)
  else
    let recovery_count := 0
    let failure_count := s.failure_count + 1
    if cfg.failure_threshold ≤ failure_count ∧ s.failover_active = false then
      if inp.trigger_ok then
        if inp.connect_ok then
          (⟨0, recovery_count, true⟩, ⟨true, true, false⟩)
        else
          (⟨failure_count, recovery_count, s.failover_active⟩, ⟨true, true, false⟩)
      else
        (⟨failure_count, recovery_count, s.failover_active⟩, ⟨true, false, false⟩)
    else
      (⟨failure_count, recovery_count, s.failover_active⟩, ⟨false, false, false⟩)

/-- Run the loop over a finite list of tick inputs. -/
def run_list (cfg : Config) (s : FailoverState) (inps : List TickInput) :
    FailoverState :=
  inps.foldl (fun t i => (stepFailover cfg t i).1) s

/-- The loop state just before tick `i`, when the loop (started at
`initState`) is driven by the input sequence `inputs`. -/
def stateAt (cfg : Config) (inputs : Nat → TickInput) : Nat → FailoverState
  | 0 => initState
  | i + 1 => (stepFailover cfg (stateAt cfg inputs i) (inputs i)).1

/-- The machine becomes `Active` at tick `i`: it enters the tick idle and
leaves it with `failover_active` set. -/
def becomesActiveAt (cfg : Config) (inputs : Nat → TickInput) (i : Nat) : Prop :=
  (stateAt cfg inputs i).failover_active = false ∧
    (stateAt cfg inputs (i + 1)).failover_active = true

/-- Length of the maximal all-offline suffix of the first `i` tick inputs. -/
def offRun (inputs : Nat → TickInput) : Nat → Nat
  | 0 => 0
  | i + 1 => if (inputs i).is_connected then 0 else offRun inputs i + 1

/-- Length of the maximal all-online suffix of the first `i` tick inputs. -/
def onRun (inputs : Nat → TickInput) : Nat → Nat
  | 0 => 0
  | i + 1 => if (inputs i).is_connected then onRun inputs i + 1 else 0

/-! ### `connect_to_hotspot` -/

/-- Outcome of the Keychain lookup in `connect_to_hotspot`:
`found p` models the `security find-generic-password` subprocess
completing with `stdout.strip() = p` (the empty string when no password
is stored), `raised` any exception from that subprocess call. -/
inductive KeychainOutcome where
  | found (password : String)
  | raised
  deriving DecidableEq

/-- Outcome of the `networksetup -setairportnetwork` join subprocess. -/
inductive JoinOutcome where
  | completed (returncode : Int)
  | raised
  deriving DecidableEq

/-- The distinct terminal log messages `connect_to_hotspot` can emit. -/
inductive ConnectLog where
  | connected
  | connectionFailed
  | noPasswordFound
  | keychainError
  | outerError
  deriving DecidableEq

/-- `connect_to_hotspot` (monitor.py lines 200-236) as a function of the
Keychain lookup outcome and of the join subprocess outcome (consulted
only when a non-empty password was found).  Returns the boolean result,
whether the join command was invoked at all, and which terminal message
was logged.  Mirrors the code: the inner `try` wraps both the lookup and
the join, so an exception from either lands in the
"Error getting password from Keychain" handler; an empty password logs
"No password found in Keychain" and returns `False` without joining. -/
def connect_to_hotspot (key : KeychainOutcome) (join : JoinOutcome) :
    Bool × Bool × ConnectLog :=
  match key with
  | .raised => (false, false, .keychainError)
  | .found password =>
    if password ≠ "" then
      match join with
      | .completed rc =>
        if rc = 0 then (true, true, .connected)
        else (false, true, .connectionFailed)
      | .raised => (false, true, .keychainError)
    else
      (false, false, .noPasswordFound)

/-! ### `send_heartbeat` and the heartbeat thread -/

/-- Outcome of an HTTP POST made through `requests.post`: a response
with a status code, or an exception (transport error, timeout). -/
inductive PostOutcome where
  | status (code : Nat)
  | raised
  deriving DecidableEq

/-- The instance fields `send_heartbeat` mutates (monitor.py
lines 37-38): the heartbeat counter and the last observed lock status. -/
structure HeartbeatState where
  heartbeat_count : Nat
  last_lock_status : Option Bool
  deriving DecidableEq

/-- `send_heartbeat` (monitor.py lines 146-177) as a function of the
lock-probe outcome and the POST outcome.  Returns the updated instance
fields, the boolean result, and the status string carried in the POST
body.  The lock status is recorded before the POST is issued, so it is
updated even when the POST raises; the counter is bumped only on a 200
response.  Every exception is caught and collapses to `False`. -/
def send_heartbeat (hb : HeartbeatState) (lock : PgrepOutcome)
    (post : PostOutcome) : HeartbeatState × Bool × String :=
  let isLocked := is_screen_locked lock
  let status := heartbeatStatus isLocked
  let hb1 : HeartbeatState := { hb with last_lock_status := some isLocked }
  match post with
  | .status code =>
    if code = 200 then
      ({ hb1 with heartbeat_count := hb1.heartbeat_count + 1 }, true, status)
    else (hb1, false, status)
  | .raised => (hb1, false, status)

/-- Joint state of the monitor process: the decision loop's locals and
the fields written by the heartbeat thread.  They are disjoint: the
decision loop never reads or writes `hb`, the heartbeat never reads or
writes `fo`. -/
structure MonitorState where
  fo : FailoverState
  hb : HeartbeatState
  deriving DecidableEq

/-- One scheduling event of the whole process: either a decision-loop
tick or one heartbeat-thread iteration with its external outcomes. -/
inductive SystemEvent where
  | tick (inp : TickInput)
  | heartbeat (lock : PgrepOutcome) (post : PostOutcome)
  deriving DecidableEq

/-- Effect of one scheduling event on the joint state: a tick runs
`stepFailover` on the decision locals, a heartbeat runs `send_heartbeat`
on the heartbeat fields. -/
def systemStep (cfg : Config) (s : MonitorState) : SystemEvent → MonitorState
  | .tick inp => { s with fo := (stepFailover cfg s.fo inp).1 }
  | .heartbeat lock post => { s with hb := (send_heartbeat s.hb lock post).1 }

/-- Run the whole process over an arbitrary interleaving of ticks and
heartbeats. -/
def runSystem (cfg : Config) (s : MonitorState) (evts : List SystemEvent) :
    MonitorState :=
  evts.foldl (systemStep cfg) s

/-- The decision-tick inputs occurring in an event interleaving, in order. -/
def tickInputs : List SystemEvent → List TickInput
  | [] => []
  | .tick inp :: rest => inp :: tickInputs rest
  | .heartbeat _ _ :: rest => tickInputs rest

/-! ### The loop with unexpected faults -/

/-- A decision-loop tick as scheduled: either it runs normally with the
given input, or an unexpected exception is raised during it. -/
inductive TickEvent where
  | normal (inp : TickInput)
  | fault
  deriving DecidableEq

/-- `monitor_network`'s `try: while True: ... except Exception:`
(monitor.py lines 254-317): the `try/except` wraps the *whole* loop, so
the first unexpected fault is caught at the function boundary, logged,
and terminates the loop; the function then returns normally (the state
reached so far, and how many ticks were executed).  That the embedding
is a total function returning a plain pair is the catch: no exception
propagates out of `monitor_network`. -/
def monitorLoop (cfg : Config) : FailoverState → List TickEvent →
    FailoverState × Nat
  | s, [] => (s, 0)
  | s, .normal inp :: rest =>
    let r := monitorLoop cfg (stepFailover cfg s inp).1 rest
    (r.1, r.2 + 1)
  | s, .fault :: _ => (s, 0)

/-- The tick inputs strictly before the first fault of an event list. -/
def beforeFault : List TickEvent → List TickInput
  | [] => []
  | .normal inp :: rest => inp :: beforeFault rest
  | .fault :: _ => []

/-! ### Step-level lemmas about one tick -/

/-- A disconnected tick never clears `failover_active`: the only path out
of `Active` is the recovery branch of a connected tick. -/
theorem step_offline_preserves_active (cfg : Config) (s : FailoverState)
    (inp : TickInput) (hc : inp.is_connected = false)
    (ha : s.failover_active = true) :
    ((stepFailover cfg s inp).1).failover_active = true := by
  simp only [stepFailover, hc]
  simp only [Bool.false_eq_true, if_false]
  split_ifs with h1 h2 h3 <;> simp_all

/-- Characterization of the Idle-to-Active transition of one tick: it
happens exactly on a disconnected tick from an idle state whose
incremented failure count meets the threshold, with the trigger accepted
and the connect succeeding. -/
theorem step_activates_iff (cfg : Config) (s : FailoverState) (inp : TickInput) :
    (s.failover_active = false ∧
        ((stepFailover cfg s inp).1).failover_active = true) ↔
      (inp.is_connected = false ∧ s.failover_active = false ∧
        cfg.failure_threshold ≤ s.failure_count + 1 ∧
        inp.trigger_ok = true ∧ inp.connect_ok = true) := by
  simp only [stepFailover]
  rcases inp with ⟨c, t, k, d⟩
  rcases c <;> rcases t <;> rcases k <;>
    simp_all <;> split_ifs <;> simp_all

/-- Characterization of the Active-to-Idle transition of one tick: it
happens exactly on a connected tick from an active state whose
incremented recovery count meets the threshold. -/
theorem step_deactivates_iff (cfg : Config) (s : FailoverState) (inp : TickInput) :
    (s.failover_active = true ∧
        ((stepFailover cfg s inp).1).failover_active = false) ↔
      (inp.is_connected = true ∧ s.failover_active = true ∧
        cfg.recovery_threshold ≤ s.recovery_count + 1) := by
  simp only [stepFailover]
  rcases inp with ⟨c, t, k, d⟩
  rcases c <;> rcases t <;> rcases k <;>
    simp_all <;> split_ifs <;> simp_all

/-- On a disconnected tick the failure counter is incremented, except
that a successful failover resets it to zero. -/
theorem step_offline_fc (cfg : Config) (s : FailoverState) (inp : TickInput)
    (hc : inp.is_connected = false) :
    ((stepFailover cfg s inp).1).failure_count = s.failure_count + 1 ∨
      (((stepFailover cfg s inp).1).failure_count = 0 ∧
        s.failover_active = false ∧
        ((stepFailover cfg s inp).1).failover_active = true) := by
  simp only [stepFailover, hc]
  simp only [Bool.false_eq_true, if_false]
  split_ifs with h1 h2 h3 <;> simp_all

/-- A connected tick zeroes the failure counter. -/
theorem step_online_fc (cfg : Config) (s : FailoverState) (inp : TickInput)
    (hc : inp.is_connected = true) :
    ((stepFailover cfg s inp).1).failure_count = 0 := by
  simp only [stepFailover, hc, if_true]
  split_ifs <;> rfl

/-- A disconnected tick zeroes the recovery counter. -/
theorem step_offline_rc (cfg : Config) (s : FailoverState) (inp : TickInput)
    (hc : inp.is_connected = false) :
    ((stepFailover cfg s inp).1).recovery_count = 0 := by
  simp only [stepFailover, hc]
  simp only [Bool.false_eq_true, if_false]
  split_ifs <;> rfl

/-- On a connected tick the recovery counter is incremented, except that
the recovery transition resets it to zero. -/
theorem step_online_rc (cfg : Config) (s : FailoverState) (inp : TickInput)
    (hc : inp.is_connected = true) :
    ((stepFailover cfg s inp).1).recovery_count = s.recovery_count + 1 ∨
      ((stepFailover cfg s inp).1).recovery_count = 0 := by
  simp only [stepFailover, hc, if_true]
  split_ifs <;> simp

/-! ### Run-level lemmas -/

/-- The failure counter never exceeds the length of the trailing
all-offline run of inputs. -/
theorem fc_le_offRun (cfg : Config) (inputs : Nat → TickInput) :
    ∀ i, (stateAt cfg inputs i).failure_count ≤ offRun inputs i := by
  intro i
  induction i with
  | zero => simp [stateAt, initState, offRun]
  | succ i ih =>
    by_cases hc : (inputs i).is_connected = true
    · have h0 := step_online_fc cfg (stateAt cfg inputs i) (inputs i) hc
      simp [stateAt, offRun, hc, h0]
    · simp only [Bool.not_eq_true] at hc
      rcases step_offline_fc cfg (stateAt cfg inputs i) (inputs i) hc with h | h
      · simp only [stateAt, offRun, hc]
        simp only [Bool.false_eq_true, if_false]
        omega
      · simp only [stateAt, offRun, hc]
        simp only [Bool.false_eq_true, if_false]
        omega

/-- The recovery counter never exceeds the length of the trailing
all-online run of inputs. -/
theorem rc_le_onRun (cfg : Config) (inputs : Nat → TickInput) :
    ∀ i, (stateAt cfg inputs i).recovery_count ≤ onRun inputs i := by
  intro i
  induction i with
  | zero => simp [stateAt, initState, onRun]
  | succ i ih =>
    by_cases hc : (inputs i).is_connected = true
    · rcases step_online_rc cfg (stateAt cfg inputs i) (inputs i) hc with h | h
      · simp only [stateAt, onRun, hc, if_true]
        omega
      · simp only [stateAt, onRun, hc, if_true]
        omega
    · simp only [Bool.not_eq_true] at hc
      have h0 := step_offline_rc cfg (stateAt cfg inputs i) (inputs i) hc
      simp [stateAt, onRun, hc, h0]

/-- The trailing offline run is at most the number of ticks so far. -/
theorem offRun_le (inputs : Nat → TickInput) : ∀ i, offRun inputs i ≤ i := by
  intro i
  induction i with
  | zero => simp [offRun]
  | succ i ih => simp only [offRun]; split_ifs <;> omega

/-- The trailing online run is at most the number of ticks so far. -/
theorem onRun_le (inputs : Nat → TickInput) : ∀ i, onRun inputs i ≤ i := by
  intro i
  induction i with
  | zero => simp [onRun]
  | succ i ih => simp only [onRun]; split_ifs <;> omega

/-- Every tick inside the trailing offline run is indeed offline. -/
theorem offRun_mem (inputs : Nat → TickInput) :
    ∀ i m, m < i → i ≤ m + offRun inputs i →
      (inputs m).is_connected = false := by
  intro i
  induction i with
  | zero => intro m hm; omega
  | succ i ih =>
    intro m hm hle
    by_cases hc : (inputs i).is_connected = true
    · simp [offRun, hc] at hle; omega
    · simp only [Bool.not_eq_true] at hc
      simp only [offRun, hc] at hle
      simp only [Bool.false_eq_true, if_false] at hle
      rcases Nat.lt_succ_iff_lt_or_eq.mp hm with hlt | heq
      · exact ih m hlt (by omega)
      · rwa [heq]

/-- Every tick inside the trailing online run is indeed online. -/
theorem onRun_mem (inputs : Nat → TickInput) :
    ∀ i m, m < i → i ≤ m + onRun inputs i →
      (inputs m).is_connected = true := by
  intro i
  induction i with
  | zero => intro m hm; omega
  | succ i ih =>
    intro m hm hle
    by_cases hc : (inputs i).is_connected = true
    · simp only [onRun, hc, if_true] at hle
      rcases Nat.lt_succ_iff_lt_or_eq.mp hm with hlt | heq
      · exact ih m hlt (by omega)
      · rwa [heq]
    · simp only [Bool.not_eq_true] at hc
      simp [onRun, hc] at hle; omega

/-- Idle states propagate backwards across an offline window: if the run
is idle after a stretch of offline ticks, it was idle at every point of
the stretch (offline ticks cannot leave `Active`). -/
theorem idle_back_run (cfg : Config) (inputs : Nat → TickInput) (i a : Nat)
    (hoff : ∀ m, a ≤ m → m < i → (inputs m).is_connected = false)
    (hi : (stateAt cfg inputs i).failover_active = false) :
    ∀ j, a ≤ j → j ≤ i → (stateAt cfg inputs j).failover_active = false := by
  have key : ∀ d j, a ≤ j → j + d = i →
      (stateAt cfg inputs j).failover_active = false := by
    intro d
    induction d with
    | zero =>
      intro j _ hj
      simp only [Nat.add_zero] at hj
      rwa [hj]
    | succ d ih =>
      intro j hja hj
      have h1 : (stateAt cfg inputs (j + 1)).failover_active = false :=
        ih (j + 1) (by omega) (by omega)
      by_contra hact
      simp only [Bool.not_eq_false] at hact
      have := step_offline_preserves_active cfg (stateAt cfg inputs j)
        (inputs j) (hoff j hja (by omega)) hact
      simp only [stateAt] at h1
      rw [h1] at this
      exact Bool.false_ne_true this
  intro j hja hji
  exact key (i - j) j hja (by omega)

/-- Across a stretch of offline ticks none of which ends with a failover
active, the failure counter grows by one per tick. -/
theorem fc_grows (cfg : Config) (inputs : Nat → TickInput) (a : Nat) :
    ∀ k, (∀ m, a ≤ m → m < a + k →
        (inputs m).is_connected = false ∧
        (stateAt cfg inputs (m + 1)).failover_active = false) →
      k ≤ (stateAt cfg inputs (a + k)).failure_count := by
  intro k
  induction k with
  | zero => intro _; omega
  | succ k ih =>
    intro h
    have hk : k ≤ (stateAt cfg inputs (a + k)).failure_count :=
      ih (fun m hm1 hm2 => h m hm1 (by omega))
    have hmk := h (a + k) (by omega) (by omega)
    rcases step_offline_fc cfg (stateAt cfg inputs (a + k)) (inputs (a + k))
        hmk.1 with hfc | hfc
    · have : stateAt cfg inputs (a + (k + 1)) =
          (stepFailover cfg (stateAt cfg inputs (a + k)) (inputs (a + k))).1 := by
        rw [show a + (k + 1) = (a + k) + 1 by omega]
        rfl
      rw [this, hfc]
      omega
    · exfalso
      have : stateAt cfg inputs ((a + k) + 1) =
          (stepFailover cfg (stateAt cfg inputs (a + k)) (inputs (a + k))).1 := rfl
      rw [show a + k + 1 = (a + k) + 1 by omega] at hmk
      rw [this] at hmk
      rw [hfc.2.2] at hmk
      exact absurd hmk.2 (by simp)

/-! ### Claim theorems -/

/-- C1: driving `monitor_network`'s tick loop with any input sequence
(probe results together with the failover-attempt outcomes at each
tick), the state becomes `Active` at tick `i` iff the window of the last
`failure_threshold` probe results ending at tick `i` exists and is all
`false`, the machine was idle throughout that window, and the attempt at
tick `i` succeeded (`trigger_hotspot_failover` accepted and
`connect_to_hotspot` succeeding). -/
theorem wifi_C1_enters_active_iff (cfg : Config) (inputs : Nat → TickInput)
    (i : Nat) (ht : 1 ≤ cfg.failure_threshold) :
    becomesActiveAt cfg inputs i ↔
      (cfg.failure_threshold ≤ i + 1 ∧
        (∀ j, i + 1 - cfg.failure_threshold ≤ j → j ≤ i →
          (inputs j).is_connected = false ∧
          (stateAt cfg inputs j).failover_active = false) ∧
        (inputs i).trigger_ok = true ∧ (inputs i).connect_ok = true) := by
  constructor
  · rintro ⟨hidle, hact⟩
    have hact' : ((stepFailover cfg (stateAt cfg inputs i) (inputs i)).1).failover_active
        = true := by simpa only [stateAt] using hact
    obtain ⟨hoff_i, -, hth, htr, hco⟩ :=
      (step_activates_iff cfg (stateAt cfg inputs i) (inputs i)).mp ⟨hidle, hact'⟩
    have hfc_le := fc_le_offRun cfg inputs i
    have hor_le := offRun_le inputs i
    have hoffw : ∀ j, i + 1 - cfg.failure_threshold ≤ j → j < i →
        (inputs j).is_connected = false := by
      intro j hj1 hj2
      exact offRun_mem inputs i j hj2 (by omega)
    refine ⟨by omega, ?_, htr, hco⟩
    intro j hj1 hj2
    rcases Nat.lt_or_ge j i with hlt | hge
    · exact ⟨hoffw j hj1 hlt,
        idle_back_run cfg inputs i (i + 1 - cfg.failure_threshold)
          hoffw hidle j hj1 hj2⟩
    · have hje : j = i := by omega
      subst hje
      exact ⟨hoff_i, hidle⟩
  · rintro ⟨hle, hw, htr, hco⟩
    have hidle : (stateAt cfg inputs i).failover_active = false :=
      (hw i (by omega) (le_refl i)).2
    have hoff_i : (inputs i).is_connected = false :=
      (hw i (by omega) (le_refl i)).1
    have hik : (i + 1 - cfg.failure_threshold) + (cfg.failure_threshold - 1) = i := by
      omega
    have hhyp : ∀ m, i + 1 - cfg.failure_threshold ≤ m →
        m < (i + 1 - cfg.failure_threshold) + (cfg.failure_threshold - 1) →
        (inputs m).is_connected = false ∧
        (stateAt cfg inputs (m + 1)).failover_active = false := by
      intro m hm1 hm2
      exact ⟨(hw m (by omega) (by omega)).1, (hw (m + 1) (by omega) (by omega)).2⟩
    have hgrow : cfg.failure_threshold - 1 ≤ (stateAt cfg inputs i).failure_count := by
      have := fc_grows cfg inputs (i + 1 - cfg.failure_threshold)
        (cfg.failure_threshold - 1) hhyp
      rwa [hik] at this
    have hstep := (step_activates_iff cfg (stateAt cfg inputs i) (inputs i)).mpr
      ⟨hoff_i, hidle, by omega, htr, hco⟩
    refine ⟨hidle, ?_⟩
    simpa only [stateAt] using hstep.2

/-- A concrete input sequence, offline at every tick with every external
call succeeding. -/
def inputsAllOffline : Nat → TickInput := fun _ => ⟨false, true, true, true⟩

/-- Witness for C1: with thresholds (2, 3) and every probe failing with
a succeeding attempt, the machine becomes `Active` exactly at tick 1. -/
theorem wifi_C1_enters_active_iff_witness :
    becomesActiveAt ⟨2, 3⟩ inputsAllOffline 1 := by
  refine (wifi_C1_enters_active_iff ⟨2, 3⟩ inputsAllOffline 1 (by decide)).mpr
    ⟨by decide, ?_, rfl, rfl⟩
  intro j h1 h2
  interval_cases j
  · exact ⟨rfl, rfl⟩
  · exact ⟨rfl, by decide⟩

/-- C2 (counterexample): the claim that an unexpected fault during a
tick lets the loop continue with the next tick — i.e. that the loop
always executes every scheduled tick — is false: the `try/except` of
`monitor_network` wraps the whole `while` loop, so the first fault
terminates it.  With events `[fault, normal tick]` the loop executes 0
of the 2 ticks. -/
theorem wifi_C2_counterexample :
    ¬ (∀ (cfg : Config) (s : FailoverState) (evts : List TickEvent),
        (monitorLoop cfg s evts).2 = evts.length) := by
  intro h
  exact absurd
    (h ⟨2, 3⟩ initState [.fault, .normal ⟨true, true, true, true⟩])
    (by decide)

/-- C2 (amended): an unexpected exception raised during a tick is caught
at the `monitor_network` boundary (the embedding being a total function
returning a plain pair is that catch: nothing propagates out) and
logged, but it terminates the monitoring loop: exactly the ticks before
the first fault are executed, folding `stepFailover` over their inputs,
and no tick after the fault runs. -/
theorem wifi_C2_fault_terminates_loop (cfg : Config) (s : FailoverState)
    (evts : List TickEvent) :
    monitorLoop cfg s evts =
      (run_list cfg s (beforeFault evts), (beforeFault evts).length) := by
  induction evts generalizing s with
  | nil => rfl
  | cons e rest ih =>
    cases e with
    | normal inp =>
      simp only [monitorLoop, beforeFault, run_list, List.foldl_cons,
        List.length_cons, ih]
    | fault => rfl

/-- C3: when the state is `Active` and a connected tick raises the
consecutive-success counter to the recovery threshold, the tick calls
`disable_hotspot_command`, sets the state to `Idle` and zeroes the
recovery counter, whatever `disable_hotspot_command` returns; and over a
whole run, an `Active`-to-`Idle` transition at tick `i` implies the last
`recovery_threshold` probes ending at tick `i` were all `true`. -/
theorem wifi_C3_recovery_transition (cfg : Config) :
    (∀ (s : FailoverState) (inp : TickInput),
      s.failover_active = true → inp.is_connected = true →
      cfg.recovery_threshold ≤ s.recovery_count + 1 →
      ∀ b : Bool,
        stepFailover cfg s { inp with disable_ok := b } =
          (⟨0, 0, false⟩, ⟨false, false, true⟩)) ∧
    (∀ (inputs : Nat → TickInput) (i : Nat),
      (stateAt cfg inputs i).failover_active = true →
      (stateAt cfg inputs (i + 1)).failover_active = false →
      (cfg.recovery_threshold ≤ i + 1 ∧
        ∀ j, i + 1 - cfg.recovery_threshold ≤ j → j ≤ i →
          (inputs j).is_connected = true)) := by
  constructor
  · intro s inp ha hc hth b
    simp only [stepFailover, hc, if_true]
    rw [if_pos ⟨ha, hth⟩]
  · intro inputs i hact hidle
    have hidle' : ((stepFailover cfg (stateAt cfg inputs i) (inputs i)).1).failover_active
        = false := by simpa only [stateAt] using hidle
    obtain ⟨hon_i, -, hth⟩ :=
      (step_deactivates_iff cfg (stateAt cfg inputs i) (inputs i)).mp ⟨hact, hidle'⟩
    have hrc_le := rc_le_onRun cfg inputs i
    have hon_le := onRun_le inputs i
    refine ⟨by omega, ?_⟩
    intro j hj1 hj2
    rcases Nat.lt_or_ge j i with hlt | hge
    · exact onRun_mem inputs i j hlt (by omega)
    · have hje : j = i := by omega
      subst hje
      exact hon_i

/-- Witness for C3: with thresholds (2, 3), an active state with
recovery counter 2 and an online tick transitions to idle, calling
`disable_hotspot_command`, even when that call will fail. -/
theorem wifi_C3_recovery_transition_witness :
    stepFailover ⟨2, 3⟩ ⟨0, 2, true⟩ ⟨true, true, true, false⟩ =
      (⟨0, 0, false⟩, ⟨false, false, true⟩) :=
  (wifi_C3_recovery_transition ⟨2, 3⟩).1 ⟨0, 2, true⟩ ⟨true, true, true, true⟩
    rfl rfl (by decide) false

/-- C4: on a disconnected tick from an idle state where the threshold is
met but the attempt fails (trigger rejected, or trigger accepted and
connect failing), the state stays idle and keeps the incremented failure
count; hence on a following disconnected tick the threshold is still met
and `trigger_hotspot_failover` is called again. -/
theorem wifi_C4_failed_attempt_retries (cfg : Config) (s : FailoverState)
    (inp inp' : TickInput)
    (hc : inp.is_connected = false)
    (hidle : s.failover_active = false)
    (hth : cfg.failure_threshold ≤ s.failure_count + 1)
    (hfail : ¬(inp.trigger_ok = true ∧ inp.connect_ok = true))
    (hc' : inp'.is_connected = false) :
    (stepFailover cfg s inp).1 = ⟨s.failure_count + 1, 0, false⟩ ∧
      cfg.failure_threshold ≤ s.failure_count + 1 + 1 ∧
      ((stepFailover cfg (stepFailover cfg s inp).1 inp').2).called_trigger = true := by
  have h1 : (stepFailover cfg s inp).1 = ⟨s.failure_count + 1, 0, false⟩ := by
    simp only [stepFailover, hc]
    simp only [Bool.false_eq_true, if_false]
    rw [if_pos ⟨hth, hidle⟩]
    rcases htr : inp.trigger_ok with _ | _
    · simp [hidle]
    · rcases hco : inp.connect_ok with _ | _
      · simp [hidle]
      · exact absurd ⟨htr, hco⟩ hfail
  refine ⟨h1, by omega, ?_⟩
  rw [h1]
  simp only [stepFailover, hc']
  simp only [Bool.false_eq_true, if_false]
  rw [if_pos (And.intro
    (show cfg.failure_threshold ≤ s.failure_count + 1 + 1 by omega) trivial)]
  split_ifs <;> rfl

/-- Witness for C4: with threshold 2, failure count 1, a disconnected
tick whose trigger is rejected keeps the state idle with failure count
2, and the next disconnected tick calls the trigger again. -/
theorem wifi_C4_failed_attempt_retries_witness :
    (stepFailover ⟨2, 3⟩ ⟨1, 0, false⟩ ⟨false, false, true, true⟩).1 =
        ⟨2, 0, false⟩ ∧
      2 ≤ 1 + 1 + 1 ∧
      ((stepFailover ⟨2, 3⟩
          (stepFailover ⟨2, 3⟩ ⟨1, 0, false⟩ ⟨false, false, true, true⟩).1
          ⟨false, true, true, true⟩).2).called_trigger = true :=
  wifi_C4_failed_attempt_retries ⟨2, 3⟩ ⟨1, 0, false⟩
    ⟨false, false, true, true⟩ ⟨false, true, true, true⟩
    rfl rfl (by decide) (by decide) rfl

/-- C5: over any run, a transition into `Active` at tick `i` happens
only when the failure counter of that tick (the entering count plus the
tick's increment) has reached the failure threshold: the machine never
enters `Active` below the threshold. -/
theorem wifi_C5_active_needs_threshold (cfg : Config)
    (inputs : Nat → TickInput) (i : Nat)
    (h : becomesActiveAt cfg inputs i) :
    cfg.failure_threshold ≤ (stateAt cfg inputs i).failure_count + 1 := by
  obtain ⟨hidle, hact⟩ := h
  have hact' : ((stepFailover cfg (stateAt cfg inputs i) (inputs i)).1).failover_active
      = true := by simpa only [stateAt] using hact
  exact ((step_activates_iff cfg (stateAt cfg inputs i) (inputs i)).mp
    ⟨hidle, hact'⟩).2.2.1

/-- Witness for C5: on the all-offline run with thresholds (2, 3) the
machine becomes active at tick 1, where the failure counter plus the
tick's increment is indeed at least 2. -/
theorem wifi_C5_active_needs_threshold_witness :
    2 ≤ (stateAt ⟨2, 3⟩ inputsAllOffline 1).failure_count + 1 :=
  wifi_C5_active_needs_threshold ⟨2, 3⟩ inputsAllOffline 1 ⟨by decide, by decide⟩

/-- C6: at any tick performing a transition (in either direction), both
counters of the resulting state are zero — the driving counter is
consumed by the transition, and the opposing counter had already been
zeroed by the tick's own reset before the transition fired: every
disconnected tick zeroes the recovery counter and every connected tick
zeroes the failure counter, transition or not. -/
theorem wifi_C6_counters_zero_after_transition (cfg : Config)
    (s : FailoverState) (inp : TickInput) :
    (((stepFailover cfg s inp).1).failover_active ≠ s.failover_active →
      ((stepFailover cfg s inp).1).failure_count = 0 ∧
        ((stepFailover cfg s inp).1).recovery_count = 0) ∧
    (inp.is_connected = false → ((stepFailover cfg s inp).1).recovery_count = 0) ∧
    (inp.is_connected = true → ((stepFailover cfg s inp).1).failure_count = 0) := by
  refine ⟨?_, fun hc => step_offline_rc cfg s inp hc,
    fun hc => step_online_fc cfg s inp hc⟩
  intro htrans
  rcases inp with ⟨c, t, k, d⟩
  rcases c <;> rcases t <;> rcases k <;>
    simp only [stepFailover] at htrans ⊢ <;>
    split_ifs at htrans ⊢ <;> simp_all

/-- Witness for C6: with threshold 2, a disconnected tick from failure
count 1 with a succeeding attempt performs the Idle-to-Active
transition, after which both counters are zero. -/
theorem wifi_C6_counters_zero_after_transition_witness :
    ((stepFailover ⟨2, 3⟩ ⟨1, 0, false⟩ ⟨false, true, true, true⟩).1).failure_count
        = 0 ∧
      ((stepFailover ⟨2, 3⟩ ⟨1, 0, false⟩ ⟨false, true, true, true⟩).1).recovery_count
        = 0 :=
  (wifi_C6_counters_zero_after_transition ⟨2, 3⟩ ⟨1, 0, false⟩
    ⟨false, true, true, true⟩).1 (by decide)

/-- C7: when the Keychain lookup completes with no stored password,
`connect_to_hotspot` returns `false` without invoking the join command,
logging the distinct missing-credential message (different from every
other terminal message); and a tick whose connect attempt fails this way
leaves the decision counters untouched by the attempt: the state stays
idle with the tick's incremented failure count. -/
theorem wifi_C7_missing_credential (cfg : Config) (s : FailoverState)
    (inp : TickInput) (join : JoinOutcome)
    (hc : inp.is_connected = false)
    (hidle : s.failover_active = false)
    (hth : cfg.failure_threshold ≤ s.failure_count + 1)
    (htr : inp.trigger_ok = true)
    (hco : inp.connect_ok = (connect_to_hotspot (.found "") join).1) :
    connect_to_hotspot (.found "") join =
        (false, false, ConnectLog.noPasswordFound) ∧
      (ConnectLog.noPasswordFound ≠ ConnectLog.keychainError ∧
        ConnectLog.noPasswordFound ≠ ConnectLog.connectionFailed ∧
        ConnectLog.noPasswordFound ≠ ConnectLog.connected ∧
        ConnectLog.noPasswordFound ≠ ConnectLog.outerError) ∧
      (stepFailover cfg s inp).1 = ⟨s.failure_count + 1, 0, false⟩ := by
  have hconn : connect_to_hotspot (.found "") join =
      (false, false, ConnectLog.noPasswordFound) := rfl
  refine ⟨hconn, by decide, ?_⟩
  rw [hconn] at hco
  simp only [stepFailover, hc]
  simp only [Bool.false_eq_true, if_false]
  rw [if_pos ⟨hth, hidle⟩, htr, if_pos rfl, hco]
  simp [hidle]

/-- Witness for C7: with threshold 2 and failure count 1, a disconnected
tick with the trigger accepted but the credential missing fails the
attempt and leaves the counters as incremented. -/
theorem wifi_C7_missing_credential_witness :
    connect_to_hotspot (.found "") (.completed 0) =
        (false, false, ConnectLog.noPasswordFound) ∧
      (ConnectLog.noPasswordFound ≠ ConnectLog.keychainError ∧
        ConnectLog.noPasswordFound ≠ ConnectLog.connectionFailed ∧
        ConnectLog.noPasswordFound ≠ ConnectLog.connected ∧
        ConnectLog.noPasswordFound ≠ ConnectLog.outerError) ∧
      (stepFailover ⟨2, 3⟩ ⟨1, 0, false⟩ ⟨false, true, false, true⟩).1 =
        ⟨2, 0, false⟩ :=
  wifi_C7_missing_credential ⟨2, 3⟩ ⟨1, 0, false⟩ ⟨false, true, false, true⟩
    (.completed 0) rfl rfl (by decide) rfl rfl

/-- C8: `check_internet_connectivity` never lets an exception past its
boundary (it always produces a value), answers `true` exactly when the
ping completed without timing out and exited 0, and `false` on every
other outcome. -/
theorem wifi_C8_connectivity_boundary (o : PingOutcome) :
    (∃ b : Bool, check_internet_connectivity o = .ok b) ∧
      (check_internet_connectivity o = .ok true ↔ o = .completed 0) ∧
      (check_internet_connectivity o = .ok false ↔ o ≠ .completed 0) := by
  rcases o with rc | _ | _ <;>
    simp [check_internet_connectivity, checkInternetBody]

/-- C9: the heartbeat side is independent of the decision loop: a
heartbeat event never changes the decision loop's state or counters, and
over any interleaving of decision ticks and heartbeat iterations (with
arbitrary heartbeat outcomes), the decision-loop component of the final
state equals the pure decision run over just the tick inputs. -/
theorem wifi_C9_heartbeat_frame (cfg : Config) (s : MonitorState)
    (evts : List SystemEvent) :
    (∀ (lock : PgrepOutcome) (post : PostOutcome),
        (systemStep cfg s (.heartbeat lock post)).fo = s.fo) ∧
      (runSystem cfg s evts).fo = run_list cfg s.fo (tickInputs evts) := by
  refine ⟨fun lock post => rfl, ?_⟩
  induction evts generalizing s with
  | nil => rfl
  | cons e rest ih =>
    cases e with
    | tick inp =>
      simp only [runSystem, List.foldl_cons, tickInputs, run_list] at ih ⊢
      exact ih _
    | heartbeat lock post =>
      simp only [runSystem, List.foldl_cons, tickInputs] at ih ⊢
      exact ih _

/-- C10: when the lock-state probe raises, `is_screen_locked` collapses
to `false`, so `send_heartbeat` posts the status string "active"
whatever the POST outcome is. -/
theorem wifi_C10_lock_undeterminable_reports_active :
    is_screen_locked PgrepOutcome.raised = false ∧
      ∀ (hb : HeartbeatState) (post : PostOutcome),
        (send_heartbeat hb PgrepOutcome.raised post).2.2 = "active" := by
  refine ⟨rfl, fun hb post => ?_⟩
  rcases post with code | _
  · simp only [send_heartbeat, is_screen_locked, heartbeatStatus]
    split_ifs <;> simp_all
  · rfl

end WifiFailover
